import Mathlib

/-!
Verification development for the FASTSHIFT/DutyCycle firmware.

The core under scrutiny is the publish/subscribe DataBroker/DataNode
framework (`Firmware/Frameworks/DataBroker/DataBroker.cpp`), the
per-node software timers, and the service modules built on the bus
(`Firmware/App/Service/DataProc/*.cpp`, `Firmware/App/App.cpp`,
`Firmware/App/Utils/ButtonEvent/ButtonEvent.cpp`).

Each C++ function the claims depend on is given a shallow embedding
below: pure functions become Lean functions, stateful handlers become
explicit state-passing functions that also return the list of
externally observable actions (publishes, notifies, ioctls), machine
integers become `Nat`/`Int` with explicit wrapping where the C code can
overflow.  Where a framework function's body is not part of the sources
(only `DataBroker.cpp` of the framework is; `DataNode.cpp` and
`DataTimer.cpp` are absent) the definition is modelled from the spec
and marked as such in its doc comment.
-/

namespace DutyCycle

/-- Result codes of the bus (`DataNode::RES_*` as used throughout the
service modules: `RES_OK`, `RES_UNKNOWN`, `RES_UNSUPPORTED_REQUEST`,
`RES_SIZE_MISMATCH`, `RES_PARAM_ERROR`, `RES_NO_DATA`,
`RES_STOP_PROCESS`).  Only their identities matter to the claims. -/
inductive Res where
  | ok
  | unknown
  | unsupportedRequest
  | sizeMismatch
  | paramError
  | noData
  | stopProcess
  deriving DecidableEq, Repr

/-- A registered data node as seen by the broker's registry code: the
registry (`DataBroker::_nodePool`) stores nodes and compares them by
their immutable string identifier (`strcmp(id, iter->getID())`). -/
structure DataNode where
  id : String
  deriving DecidableEq, Repr

/-- `DataBroker::search(vec, id)` (DataBroker.cpp:64-72): linear scan of
the node pool, returning the first node whose identifier compares equal
to `id` under `strcmp`, or null (`none`) when there is no such node. -/
def DataBroker.search (vec : List DataNode) (id : String) : Option DataNode :=
  vec.find? (fun n => n.id == id)

/-- `DataBroker::add(node)` (DataBroker.cpp:74-83): if `search` finds a
node with the same identifier, log an error and return `false` leaving
the pool unchanged; otherwise `push_back` the node and return `true`. -/
def DataBroker.add (pool : List DataNode) (node : DataNode) :
    Bool × List DataNode :=
  match DataBroker.search pool node.id with
  | some _ => (false, pool)
  | none => (true, pool ++ [node])

/-- The pool obtained by a sequence of `DataBroker::add` calls starting
from the empty registry built by the `DataBroker` constructor
(DataBroker.cpp:29-34). -/
def DataBroker.addAll (nodes : List DataNode) : List DataNode :=
  nodes.foldl (fun pool n => (DataBroker.add pool n).2) []

/-- `ButtonEvent::getTickElaps(actTick, prevTick)`
(ButtonEvent.cpp:49-59): elapsed time between two `uint32_t` tick
stamps with explicit wraparound handling.  All intermediate values are
computed modulo `2^32` exactly as `uint32_t` arithmetic does; in the
wrap branch none of the intermediates actually overflows when both
inputs are in range, since there `prevTick > actTick ≥ 0`. -/
def ButtonEvent.getTickElaps (actTick prevTick : Nat) : Nat :=
  if prevTick ≤ actTick then
    (actTick - prevTick) % 2 ^ 32
  else
    (((4294967295 - prevTick) % 2 ^ 32 + 1) % 2 ^ 32 + actTick) % 2 ^ 32

/-- Modelled from the spec: `DataNode::publish` (in `DataNode.cpp`,
which is not among the sources; only `DataBroker.cpp` of the framework
is).  Spec §4.1: broadcast to every OTHER registered node, visiting the
registry in insertion order; each receiver's callback is invoked with
kind=PUBLISH and origin=this-node; once any receiver returns
STOP_PROCESS the loop halts and STOP_PROCESS propagates up as the
return value of `publish`.  `cb r` is the result receiver `r`'s
callback returns for the fixed payload of this broadcast; receivers are
identified by their (unique) identifiers.  The function returns the
overall result together with the identifiers whose callbacks were
invoked, in invocation order. -/
def DataNode.publishRun (pool : List DataNode) (self : String)
    (cb : String → Res) : Res × List String :=
  match pool with
  | [] => (Res.ok, [])
  | n :: rest =>
    if n.id = self then
      DataNode.publishRun rest self cb
    else if cb n.id = Res.stopProcess then
      (Res.stopProcess, [n.id])
    else
      let r := DataNode.publishRun rest self cb
      (r.1, n.id :: r.2)

/-- Modelled from the spec: `DataNode::subscribe(id)` (in
`DataNode.cpp`, not among the sources).  Spec §4.1: resolve another
node by identifier via the owning Broker, returning null exactly when
no node with that identifier is currently registered.  The resolution
itself is `DataBroker::search`, which is in the sources. -/
def DataNode.subscribe (pool : List DataNode) (id : String) : Option DataNode :=
  DataBroker.search pool id

/-- A node software timer: configured period and remaining countdown,
both in milliseconds (spec §3, Timer Manager / Node Timer). -/
structure DataTimer where
  period : Nat
  remaining : Nat
  deriving DecidableEq, Repr

/-- Modelled from the spec: one Timer Manager `handler()` pass over a
single running timer (`DataTimer.cpp` is not among the sources).  Spec
§4.2: subtract the elapsed ticks since the timer's last service from
its remaining countdown, saturating at zero (`Nat` subtraction is
exactly this saturation); if the remaining countdown reaches zero,
synchronously deliver one kind=TIMER event to the owning node and
reload the countdown to the configured period, measured from now.
Returns the number of TIMER dispatches delivered in this pass together
with the timer's new state. -/
def DataTimerManager.timerStep (t : DataTimer) (elapsed : Nat) :
    Nat × DataTimer :=
  let rem := t.remaining - elapsed
  if rem = 0 then
    (1, { t with remaining := t.period })
  else
    (0, { t with remaining := rem })

/-- `GLOBAL_EVENT` (Def/Global.h). -/
inductive GLOBAL_EVENT where
  | none
  | dataProcInitFinished
  | appStarted
  | appStopped
  | appRunLoopBegin
  | appRunLoopEnd
  deriving DecidableEq, Repr

/-- `Global_Info_t` (Def/Global.h): the lifecycle broadcast envelope.
The `void* param` pointer is used only by `App_RunLoopExecute` to carry
the computed idle time, so it is modelled as an optional `Nat`. -/
structure Global_Info where
  event : GLOBAL_EVENT
  param : Option Nat
  deriving DecidableEq, Repr

/-- One observable step of `App_RunLoopExecute` (App.cpp:61-68): either
a publish of a `Global_Info_t` on the "Global" node (with the list of
receivers the broadcast actually reached, in order), or the call to
`DataBroker::handleTimer` with the value it returned. -/
inductive AppAction where
  | published (info : Global_Info) (receivers : List String)
  | timerHandled (ret : Nat)
  deriving DecidableEq, Repr

/-- `AppContext::publish(event, param)` (App.cpp:32-38): build a
`Global_Info_t` with the given event and parameter and publish it from
the cached "Global" node.  `cb info r` is receiver `r`'s callback
result for payload `info`. -/
def AppContext.publish (pool : List DataNode)
    (cb : Global_Info → String → Res) (event : GLOBAL_EVENT)
    (param : Option Nat) : Res × List String :=
  DataNode.publishRun pool "Global" (cb { event := event, param := param })

/-- `App_RunLoopExecute(context)` (App.cpp:61-68) together with
`DataBroker::handleTimer` (DataBroker.cpp:123-126), which forwards to
the Timer Manager's `handler()`.  The manager's pass is abstracted as
the value `timerRet` it returns (its internals are settled separately
via `DataTimerManager.timerStep`).  The run-loop body publishes
`APP_RUN_LOOP_BEGIN`, calls the timer handler, publishes
`APP_RUN_LOOP_END` carrying a pointer to the computed idle time, and
returns that idle time.  Result: (returned value, observable trace). -/
def App_RunLoopExecute (pool : List DataNode)
    (cb : Global_Info → String → Res) (timerRet : Nat) :
    Nat × List AppAction :=
  let beginInfo : Global_Info := { event := GLOBAL_EVENT.appRunLoopBegin, param := Option.none }
  let timeTillNext := timerRet
  let endInfo : Global_Info := { event := GLOBAL_EVENT.appRunLoopEnd, param := some timeTillNext }
  (timeTillNext,
    [AppAction.published beginInfo (AppContext.publish pool cb GLOBAL_EVENT.appRunLoopBegin Option.none).2,
     AppAction.timerHandled timerRet,
     AppAction.published endInfo (AppContext.publish pool cb GLOBAL_EVENT.appRunLoopEnd (some timeTillNext)).2])

/-- The four event kinds of the bus (`DataNode::EVENT_PUBLISH`,
`EVENT_NOTIFY`, `EVENT_PULL`, `EVENT_TIMER`). -/
inductive EventKind where
  | publish
  | notify
  | pull
  | timer
  deriving DecidableEq, Repr

/-- Two's-complement conversion of a C `int` value to `int8_t`, as
performed by the assignments into the `int8_t` fields of
`Alarm_Item_t` (DP_Alarm.cpp:168-170): the value is reduced modulo
`2^8` into `[-128, 127]`. -/
def int8OfInt (x : Int) : Int :=
  (x + 128) % 256 - 128

/-- Conversion of a C `int` value to `uint16_t` (used by the
`uint16_t` fields of `Audio_Squence_t` and `Alarm_Music_t.bpm`). -/
def uint16OfInt (x : Int) : Int :=
  x % 65536

/-- `ALARM_CMD` (Def/Alarm.h). -/
inductive ALARM_CMD where
  | none
  | set
  | list
  | setFilter
  | setAlarmMusic
  | listAlarmMusic
  | clearAlarmMusic
  | saveAlarmMusic
  | playAlarmMusic
  | playAlarmHourly
  | playTone
  deriving DecidableEq, Repr

/-- `Alarm_Info_t` (Def/Alarm.h): the NOTIFY envelope of the Alarm
node.  `filter` is a `uint32_t`, every other numeric field a C `int`. -/
structure Alarm_Info where
  cmd : ALARM_CMD
  id : Int
  hour : Int
  minute : Int
  musicID : Int
  filter : Nat
  index : Int
  frequency : Int
  duration : Int
  time : Int
  bpm : Int
  deriving DecidableEq, Repr

/-- `Alarm_Item_t` (DP_Alarm.cpp:41-51): one alarm table entry; all
three fields are `int8_t`. -/
structure AlarmItem where
  hour : Int
  minute : Int
  musicID : Int
  deriving DecidableEq, Repr

/-- Default-constructed `Alarm_Item_t`: hour = -1, minute = -1,
musicID = 0. -/
def AlarmItem.init : AlarmItem :=
  { hour := -1, minute := -1, musicID := 0 }

/-- `Alarm_Param_t` (DP_Alarm.cpp:53-60): hourly alarm filter
(`uint32_t`, default `0xFFFFFFFF`) and the table of 4 alarm entries. -/
structure Alarm_Param where
  hourlyAlarmFilter : Nat
  alarms : List AlarmItem
  deriving DecidableEq, Repr

/-- Default-constructed `Alarm_Param_t`: all four entries default. -/
def Alarm_Param.init : Alarm_Param :=
  { hourlyAlarmFilter := 0xFFFFFFFF
    alarms := [AlarmItem.init, AlarmItem.init, AlarmItem.init, AlarmItem.init] }

/-- One entry of an audio sequence (`Audio_Squence_t`, Def/Audio.h);
all fields `uint16_t`. -/
structure AudioSquence where
  frequency : Int
  duration : Int
  time : Int
  deriving DecidableEq, Repr

/-- `Alarm_Music_t` (DP_Alarm.cpp:62-69): the custom alarm music slot,
8 sequence entries plus a `uint16_t` bpm. -/
structure AlarmMusic where
  sequence : List AudioSquence
  bpm : Int
  deriving DecidableEq, Repr

/-- Default/zeroed `Alarm_Music_t` (also the result of the
`CLEAR_ALARM_MUSIC` memset). -/
def AlarmMusic.init : AlarmMusic :=
  { sequence := List.replicate 8 { frequency := 0, duration := 0, time := 0 }, bpm := 0 }

/-- The persistent state of a `DP_Alarm` instance that the event
handler reads and writes: `_alarmParam` and `_alarmMusicCustom`.  (The
`_seq[4]` member is a scratch buffer filled immediately before each
audio `play` call and never read otherwise; its contents are folded
into the emitted audio actions.) -/
structure AlarmState where
  param : Alarm_Param
  musicCustom : AlarmMusic
  deriving DecidableEq, Repr

/-- The externally observable calls DP_Alarm makes on other nodes:
audio playback notifies to the "Audio" node issued via
`Audio_Helper::play` (one `notify` per call), and persistence notifies
to the "KVDB" node issued via `KVDB_SET(_alarmParam)`. -/
inductive AlarmAction where
  | audioPlay (musicID : Int)
  | audioPlayHourly (hour : Int)
  | audioPlayTone (frequency duration : Int)
  | kvdbSetParam (p : Alarm_Param)
  deriving DecidableEq, Repr

/-- Environment of a DP_Alarm handler invocation: the results returned
by the callbacks of the collaborating nodes, and the stored blob a
`KVDB_GET(_alarmParam)` yields.  `audioRes` is what the Audio node's
callback returns for a play notify, `kvdbRes` what the KVDB node's
callback returns for a `SET_BLOB` notify (per DP_KVDB.cpp these are
`RES_OK`/`RES_NO_DATA`/`RES_SIZE_MISMATCH`, never `RES_PARAM_ERROR`,
and a missing KVDB node makes `notify` return
`RES_UNSUPPORTED_REQUEST`/`RES_UNKNOWN`). -/
structure AlarmEnv where
  audioRes : Res
  kvdbRes : Res
  kvdbStored : Option Alarm_Param
  deriving DecidableEq, Repr

/-- `DP_Alarm::playAlarmMusic(musicID)` (DP_Alarm.cpp:265-353): the
`musics` table has 4 entries (3 built-in tunes plus the custom slot);
an out-of-range id is rejected with `RES_PARAM_ERROR` and no audio
call, otherwise exactly one `Audio_Helper::play` notify is issued and
its result returned. -/
def DP_Alarm.playAlarmMusic (musicID : Int) (env : AlarmEnv) :
    Res × List AlarmAction :=
  if musicID < 0 ∨ 4 ≤ musicID then
    (Res.paramError, [])
  else
    (env.audioRes, [AlarmAction.audioPlay musicID])

/-- `DP_Alarm::playAlarmHourlyMusic(hour)` (DP_Alarm.cpp:355-385): an
hour outside `[0, 23]` is rejected with `RES_PARAM_ERROR`; otherwise
the `_seq` scratch buffer is filled from the tone table and exactly one
`Audio_Helper::play` notify is issued. -/
def DP_Alarm.playAlarmHourlyMusic (hour : Int) (env : AlarmEnv) :
    Res × List AlarmAction :=
  if hour < 0 ∨ 24 ≤ hour then
    (Res.paramError, [])
  else
    (env.audioRes, [AlarmAction.audioPlayHourly hour])

/-- The loop of `DP_Alarm::onMinuteChanged` (DP_Alarm.cpp:230-245):
scan the alarm table in index order, skipping disabled entries
(`hour < 0`); on the first entry matching `(hour, minute)` exactly,
stop (the loop `break`s) and report it. -/
def DP_Alarm.minuteChangedScan : List AlarmItem → Int → Int → Option AlarmItem
  | [], _, _ => Option.none
  | a :: rest, h, m =>
    if a.hour < 0 then
      DP_Alarm.minuteChangedScan rest h m
    else if h = a.hour ∧ m = a.minute then
      some a
    else
      DP_Alarm.minuteChangedScan rest h m

/-- `DP_Alarm::onMinuteChanged(hour, minute)` (DP_Alarm.cpp:230-245):
play the music of the first matching enabled alarm entry, if any. -/
def DP_Alarm.onMinuteChanged (p : Alarm_Param) (hour minute : Int)
    (env : AlarmEnv) : List AlarmAction :=
  match DP_Alarm.minuteChangedScan p.alarms hour minute with
  | Option.none => []
  | some a => (DP_Alarm.playAlarmMusic a.musicID env).2

/-- `DP_Alarm::onHourChanged(hour)` (DP_Alarm.cpp:219-228): skip when
the hour's bit is not set in the hourly alarm filter, otherwise play
the hourly chime.  (`hour` originates from the clock and is in
`[0, 23]`.) -/
def DP_Alarm.onHourChanged (p : Alarm_Param) (hour : Int)
    (env : AlarmEnv) : List AlarmAction :=
  if ¬ Nat.testBit p.hourlyAlarmFilter hour.toNat then
    []
  else
    (DP_Alarm.playAlarmHourlyMusic hour env).2

/-- `DP_Alarm::setAlarmMusic(info)` (DP_Alarm.cpp:247-263): index must
be within the 8-entry custom sequence; the entry and the bpm are
updated (all stored through `uint16_t` fields). -/
def DP_Alarm.setAlarmMusic (st : AlarmState) (info : Alarm_Info) :
    Res × AlarmState :=
  if info.index < 0 ∨ 8 ≤ info.index then
    (Res.paramError, st)
  else
    let entry : AudioSquence :=
      { frequency := uint16OfInt info.frequency
        duration := uint16OfInt info.duration
        time := uint16OfInt info.time }
    (Res.ok,
      { st with
        musicCustom :=
          { sequence := st.musicCustom.sequence.set info.index.toNat entry
            bpm := uint16OfInt info.bpm } })

/-- `DP_Alarm::onNotify(info)` (DP_Alarm.cpp:145-209): the NOTIFY
command dispatcher.  Returns (result, new state, observable actions).
For `SET`, id must be in `[0, 3]` (`CM_ARRAY_SIZE(_alarmParam.alarms)`
= 4), the hour must satisfy `HOUR_IS_VALID` (`h >= -1 && h < 24`,
DP_Alarm.cpp:31) and the minute must be in `[0, 59]`; on success the
entry is stored through the `int8_t` fields and the whole
`_alarmParam` is persisted with `KVDB_SET`, whose notify result is
returned. -/
def DP_Alarm.onNotify (st : AlarmState) (info : Alarm_Info)
    (env : AlarmEnv) : Res × AlarmState × List AlarmAction :=
  match info.cmd with
  | ALARM_CMD.set =>
    if info.id < 0 ∨ 4 ≤ info.id then
      (Res.paramError, st, [])
    else if info.hour < -1 ∨ 24 ≤ info.hour then
      (Res.paramError, st, [])
    else if info.minute < 0 ∨ 59 < info.minute then
      (Res.paramError, st, [])
    else
      let item : AlarmItem :=
        { hour := int8OfInt info.hour
          minute := int8OfInt info.minute
          musicID := int8OfInt info.musicID }
      let p : Alarm_Param :=
        { st.param with alarms := st.param.alarms.set info.id.toNat item }
      (env.kvdbRes, { st with param := p }, [AlarmAction.kvdbSetParam p])
  | ALARM_CMD.list => (Res.ok, st, [])
  | ALARM_CMD.setFilter =>
    let p : Alarm_Param := { st.param with hourlyAlarmFilter := info.filter }
    (env.kvdbRes, { st with param := p }, [AlarmAction.kvdbSetParam p])
  | ALARM_CMD.setAlarmMusic =>
    let r := DP_Alarm.setAlarmMusic st info
    (r.1, r.2, [])
  | ALARM_CMD.listAlarmMusic => (Res.ok, st, [])
  | ALARM_CMD.clearAlarmMusic => (Res.ok, { st with musicCustom := AlarmMusic.init }, [])
  | ALARM_CMD.playAlarmMusic =>
    let r := DP_Alarm.playAlarmMusic info.musicID env
    (r.1, st, r.2)
  | ALARM_CMD.playAlarmHourly =>
    let r := DP_Alarm.playAlarmHourlyMusic info.hour env
    (r.1, st, r.2)
  | ALARM_CMD.playTone =>
    (env.audioRes, st, [AlarmAction.audioPlayTone info.frequency info.duration])
  | _ => (Res.unsupportedRequest, st, [])

/-- `TIME_MONITOR_EVENT` as used by DP_Alarm.cpp:122-124 (its defining
header is part of `DataProc.h`, not among the sources; only the two
values the code compares against are needed, plus a distinct default
for the fall-through branch). -/
inductive TIME_MONITOR_EVENT where
  | none
  | hourChanged
  | minuteChanged
  deriving DecidableEq, Repr

/-- The `TimeMonitor_Info_t` payload as read by DP_Alarm.cpp:121-125:
an event tag and, through `info->clock`, the current hour and minute. -/
structure TimeMonitor_Info where
  event : TIME_MONITOR_EVENT
  hour : Int
  minute : Int
  deriving DecidableEq, Repr

/-- The payload blob of an event delivered to the Alarm node, as the
handler reinterprets it depending on kind and sender
(`param->data_p`).  `raw` stands for bytes that match none of the
expected layouts; reinterpreting such bytes is outside the model and
the claims never do. -/
inductive AlarmPayload where
  | timeMonitorInfo (i : TimeMonitor_Info)
  | globalInfo (g : Global_Info)
  | alarmInfo (a : Alarm_Info)
  | raw
  deriving DecidableEq, Repr

/-- The event parameter as seen by `DP_Alarm::onEvent`
(`DataNode::EventParam_t`): event kind, sender node for PUBLISH
(`param->tran`, modelled by the sender's identifier), payload size in
bytes, and the payload. -/
structure AlarmEventParam where
  event : EventKind
  tran : Option String
  size : Nat
  payload : AlarmPayload
  deriving DecidableEq, Repr

/-- `sizeof(Alarm_Info_t)` on the 32-bit ARM target: 11 four-byte
fields (one enum, nine `int`, one `uint32_t`), no padding. -/
def DP_Alarm.sizeofAlarmInfo : Nat := 44

/-- `DP_Alarm::onGlobalEvent(info)` (DP_Alarm.cpp:211-217): on
`APP_STARTED`, reload `_alarmParam` from the KVDB blob
(`KVDB_GET(_alarmParam)` overwrites it when the key is stored, leaves
it unchanged otherwise) and log the table. -/
def DP_Alarm.onGlobalEvent (st : AlarmState) (g : Global_Info)
    (env : AlarmEnv) : AlarmState :=
  if g.event = GLOBAL_EVENT.appStarted then
    { st with param := env.kvdbStored.getD st.param }
  else
    st

/-- `DP_Alarm::onEvent(param)` (DP_Alarm.cpp:116-143): the installed
event callback.  PUBLISH events are routed by sender (`param->tran`
compared against the cached `_nodeTimeMonitor` and `_nodeGlobal`
handles, whose identifiers are "TimeMonitor" and "Global"); NOTIFY
events are size-checked against `sizeof(Alarm_Info_t)` before the
payload pointer is reinterpreted; any other kind returns
`RES_UNSUPPORTED_REQUEST`. -/
def DP_Alarm.onEvent (st : AlarmState) (p : AlarmEventParam)
    (env : AlarmEnv) : Res × AlarmState × List AlarmAction :=
  match p.event with
  | EventKind.publish =>
    match p.tran, p.payload with
    | some "TimeMonitor", AlarmPayload.timeMonitorInfo i =>
      if i.event = TIME_MONITOR_EVENT.hourChanged then
        (Res.ok, st, DP_Alarm.onHourChanged st.param i.hour env)
      else if i.event = TIME_MONITOR_EVENT.minuteChanged then
        (Res.ok, st, DP_Alarm.onMinuteChanged st.param i.hour i.minute env)
      else
        (Res.ok, st, [])
    | some "Global", AlarmPayload.globalInfo g =>
      (Res.ok, DP_Alarm.onGlobalEvent st g env, [])
    | _, _ => (Res.ok, st, [])
  | EventKind.notify =>
    if p.size ≠ DP_Alarm.sizeofAlarmInfo then
      (Res.sizeMismatch, st, [])
    else
      match p.payload with
      | AlarmPayload.alarmInfo a => DP_Alarm.onNotify st a env
      | _ => (Res.unknown, st, [])
  | _ => (Res.unsupportedRequest, st, [])

/-- The identifiers `DP_Alarm`'s constructor subscribes to
(DP_Alarm.cpp:96-114): `"TimeMonitor"` (line 101, required — the
constructor returns early without installing the event callback when it
resolves to null) and `"Global"` (line 106).  The `KVDB_Helper` and
`Audio_Helper` members additionally subscribe to `"KVDB"` and
`"Audio"`, but those are helper-held handles, not subscriptions made by
the constructor body. -/
def DP_Alarm.subscriptionIDs : List String := ["TimeMonitor", "Global"]

/-- `DP_Alarm`'s constructor (DP_Alarm.cpp:96-114) installs the event
callback iff `subscribe("TimeMonitor")` succeeds. -/
def DP_Alarm.installsCallback (pool : List DataNode) : Bool :=
  (DataNode.subscribe pool "TimeMonitor").isSome

/-- `DP_TimeMonitor`'s constructor (DP_TimeMonitor.cpp:50-67) installs
the event callback iff `subscribe("Clock")` succeeds; otherwise it
returns early and the module stays inert. -/
def DP_TimeMonitor.installsCallback (pool : List DataNode) : Bool :=
  (DataNode.subscribe pool "Clock").isSome

/-- Modelled from the spec: the dispatch a node performs when an event
reaches it (`DataNode.cpp` not among the sources).  Spec §3/§4.1:
"absence of a callback or a kind not handled returns an 'unsupported'
result" — a node whose callback was never installed answers
`RES_UNSUPPORTED_REQUEST` to every dispatch. -/
def DataNode.runCallback {α : Type} (cb : Option (α → Res)) (a : α) : Res :=
  match cb with
  | Option.none => Res.unsupportedRequest
  | some f => f a

/-- `sizeof(_value)` for `DP_Template::_value : int` on the 32-bit
target. -/
def DP_Template.sizeofValue : Nat := 4

/-- `DP_Template::onEvent(param)` (_DP_Template.cpp:51-71): the size is
checked against `sizeof(_value)` before anything else; PULL copies
`_value` out into the caller's buffer, NOTIFY copies the payload into
`_value`, any other kind falls through to `RES_OK`.  Result: (result
code, new `_value`, data written to the caller's buffer if any). -/
def DP_Template.onEvent (value : Int) (ev : EventKind) (size : Nat)
    (payload : Int) : Res × Int × Option Int :=
  if size ≠ DP_Template.sizeofValue then
    (Res.sizeMismatch, value, Option.none)
  else
    match ev with
    | EventKind.pull => (Res.ok, value, some value)
    | EventKind.notify => (Res.ok, payload, Option.none)
    | _ => (Res.ok, value, Option.none)

/-- Modelled from the spec: `DeviceObject::RES_PARAM_ERROR` (the
`DeviceObject` class declaration lives in `DeviceManager.h`, which is
not among the sources; only `DeviceManager.cpp` is).  Per §2/§5 the
concrete drivers are external collaborators specified at their
interface: `onRead` returns either a byte count or a negative error
sentinel, so the only fact any theorem uses is that this code is
negative and therefore never equals a `sizeof` byte count. -/
def DeviceObject.RES_PARAM_ERROR : Int := -4

/-- `sizeof(HAL::Clock_Info_t)` (HAL_Def.h:113-123) on the 32-bit
target: `uint16_t year`, five `uint8_t` fields plus one more
(`month day week hour minute second`), then `uint16_t millisecond` at
offset 8 — 10 bytes, 2-byte alignment, no tail padding. -/
def HAL.sizeofClockInfo : Nat := 10

/-- `Clock::onRead(buffer, size)` (HAL_Clock.cpp:66-73): a size other
than `sizeof(HAL::Clock_Info_t)` is rejected with
`DeviceObject::RES_PARAM_ERROR` before the buffer is touched;
otherwise the clock info is written into the buffer and the byte
count is returned.  Result: (return value, whether the buffer was
written). -/
def Clock.onRead (size : Nat) : Int × Bool :=
  if size ≠ HAL.sizeofClockInfo then
    (DeviceObject.RES_PARAM_ERROR, false)
  else
    ((HAL.sizeofClockInfo : Int), true)

/-- The PULL branch of `DP_Clock::onEvent` (DP_Clock.cpp:70-74):
forward the pull buffer and its size to the Clock device
(`_dev->read(param->data_p, param->size)`, dispatching to
`Clock::onRead`) and report `RES_OK` when the device read exactly
`sizeof(HAL::Clock_Info_t)` bytes, `RES_NO_DATA` otherwise. -/
def DP_Clock.onEventPull (size : Nat) : Res :=
  if (Clock.onRead size).1 = (HAL.sizeofClockInfo : Int) then
    Res.ok
  else
    Res.noData

/-- `POWER_CMD` (Def/Power.h). -/
inductive POWER_CMD where
  | none
  | updateInfo
  | shutdown
  | reboot
  | lockWakeup
  | unlockWakeup
  | kickWakup
  | setAutoShutdownTime
  deriving DecidableEq, Repr

/-- The externally observable calls of `DP_Power::onShutdown`
(DP_Power.cpp:230-241): the `Power_Info_t` publish (carrying the
command stored into `_info.cmd` just before), the battery-sleep ioctl
(`BATTERY_IOCMD_SLEEP`), the power-off ioctl (`POWER_IOCMD_POWER_OFF`),
and the `stopTimer` call on the node's own timer. -/
inductive PowerAction where
  | publishInfo (cmd : POWER_CMD)
  | batterySleepIoctl
  | powerOffIoctl
  | timerStopCall
  deriving DecidableEq, Repr

/-- `DP_Power::onShutdown()` (DP_Power.cpp:230-241): set
`_info.cmd = POWER_CMD::SHUTDOWN`, publish `_info`; if the publish
returns `RES_STOP_PROCESS`, log and return immediately; otherwise
issue the battery-sleep ioctl, the power-off ioctl, and stop the
node's timer.  `publishRes` is the value the publish returned. -/
def DP_Power.onShutdown (publishRes : Res) : List PowerAction :=
  if publishRes = Res.stopProcess then
    [PowerAction.publishInfo POWER_CMD.shutdown]
  else
    [PowerAction.publishInfo POWER_CMD.shutdown,
     PowerAction.batterySleepIoctl,
     PowerAction.powerOffIoctl,
     PowerAction.timerStopCall]

/-! ## Helper lemmas -/

lemma search_eq_none_iff (pool : List DataNode) (id : String) :
    DataBroker.search pool id = Option.none ↔ ∀ m ∈ pool, m.id ≠ id := by
  simp [DataBroker.search, List.find?_eq_none]

lemma search_ne_none_of_mem {pool : List DataNode} {id : String}
    (h : ∃ m ∈ pool, m.id = id) : DataBroker.search pool id ≠ Option.none := by
  rw [Ne, search_eq_none_iff]
  rintro hall
  obtain ⟨m, hm, hid⟩ := h
  exact hall m hm hid

lemma add_preserves_nodup (pool : List DataNode) (node : DataNode)
    (h : (pool.map DataNode.id).Nodup) :
    (((DataBroker.add pool node).2).map DataNode.id).Nodup := by
  unfold DataBroker.add
  cases hs : DataBroker.search pool node.id with
  | none =>
    have hfresh : ∀ m ∈ pool, m.id ≠ node.id := (search_eq_none_iff pool node.id).mp hs
    simp only [List.map_append, List.map_cons, List.map_nil]
    rw [List.nodup_append]
    refine ⟨h, List.nodup_singleton _, ?_⟩
    intro x hx hy
    simp only [List.mem_map] at hx
    obtain ⟨m, hm, rfl⟩ := hx
    simp only [List.mem_singleton] at hy
    exact hfresh m hm hy
  | some m => simpa using h

lemma addAll_gen_nodup (nodes : List DataNode) :
    ∀ pool : List DataNode, (pool.map DataNode.id).Nodup →
      ((nodes.foldl (fun p n => (DataBroker.add p n).2) pool).map DataNode.id).Nodup := by
  induction nodes with
  | nil => intro pool h; simpa using h
  | cons n rest ih =>
    intro pool h
    exact ih _ (add_preserves_nodup pool n h)

/-- The receivers a publish from `self` must reach, following the
spec's words: every other registered node, in registry order.  Stated
independently of `publishRun` so the fan-out theorem compares the
implementation model against it. -/
def DataNode.publishTargetsSpec (pool : List DataNode) (self : String) : List String :=
  (pool.map DataNode.id).filter (fun i => i ≠ self)

lemma publishRun_not_self (self : String) (cb : String → Res) :
    ∀ pool : List DataNode, self ∉ (DataNode.publishRun pool self cb).2 := by
  intro pool
  induction pool with
  | nil => simp [DataNode.publishRun]
  | cons n rest ih =>
    by_cases h1 : n.id = self
    · simpa [DataNode.publishRun, h1] using ih
    · by_cases h2 : cb n.id = Res.stopProcess
      · simp only [DataNode.publishRun, if_neg h1, if_pos h2]
        simp only [List.mem_singleton]
        exact fun contra => h1 contra.symm
      · simp only [DataNode.publishRun, if_neg h1, if_neg h2, List.mem_cons, not_or]
        exact ⟨fun contra => h1 contra.symm, ih⟩

lemma publishTargetsSpec_cons (n : DataNode) (rest : List DataNode) (self : String) :
    DataNode.publishTargetsSpec (n :: rest) self
      = if n.id = self then DataNode.publishTargetsSpec rest self
        else n.id :: DataNode.publishTargetsSpec rest self := by
  by_cases h : n.id = self <;>
    simp [DataNode.publishTargetsSpec, List.filter_cons, h]

lemma publishRun_no_stop (self : String) (cb : String → Res) :
    ∀ pool : List DataNode,
      (∀ i ∈ DataNode.publishTargetsSpec pool self, cb i ≠ Res.stopProcess) →
      DataNode.publishRun pool self cb = (Res.ok, DataNode.publishTargetsSpec pool self) := by
  intro pool
  induction pool with
  | nil => intro _; simp [DataNode.publishRun, DataNode.publishTargetsSpec]
  | cons n rest ih =>
    intro h
    rw [publishTargetsSpec_cons] at h ⊢
    by_cases h1 : n.id = self
    · rw [if_pos h1] at h ⊢
      simpa [DataNode.publishRun, h1] using ih h
    · rw [if_neg h1] at h ⊢
      have hn : cb n.id ≠ Res.stopProcess := h n.id (List.mem_cons_self _ _)
      have htail : ∀ i ∈ DataNode.publishTargetsSpec rest self, cb i ≠ Res.stopProcess :=
        fun i hi => h i (List.mem_cons_of_mem _ hi)
      simp [DataNode.publishRun, h1, hn, ih htail]

lemma publishRun_stops (self : String) (cb : String → Res) :
    ∀ (pool : List DataNode) (pre : List String) (x : String) (post : List String),
      DataNode.publishTargetsSpec pool self = pre ++ x :: post →
      (∀ i ∈ pre, cb i ≠ Res.stopProcess) → cb x = Res.stopProcess →
      DataNode.publishRun pool self cb = (Res.stopProcess, pre ++ [x]) := by
  intro pool
  induction pool with
  | nil =>
    intro pre x post hsplit _ _
    simp [DataNode.publishTargetsSpec] at hsplit
  | cons n rest ih =>
    intro pre x post hsplit hpre hx
    rw [publishTargetsSpec_cons] at hsplit
    by_cases h1 : n.id = self
    · rw [if_pos h1] at hsplit
      simpa [DataNode.publishRun, h1] using ih pre x post hsplit hpre hx
    · rw [if_neg h1] at hsplit
      cases pre with
      | nil =>
        simp only [List.nil_append] at hsplit ⊢
        have hhead : n.id = x := (List.cons_eq_cons.mp hsplit).1
        subst hhead
        simp [DataNode.publishRun, h1, hx]
      | cons p pre' =>
        simp only [List.cons_append, List.cons_eq_cons] at hsplit
        obtain ⟨hp, htail⟩ := hsplit
        subst hp
        have hn : cb n.id ≠ Res.stopProcess := hpre n.id (List.mem_cons_self _ _)
        have hpre' : ∀ i ∈ pre', cb i ≠ Res.stopProcess :=
          fun i hi => hpre i (List.mem_cons_of_mem _ hi)
        have hrun := ih pre' x post htail hpre' hx
        simp [DataNode.publishRun, h1, hn, hrun]

/-! ## Claim theorems -/

/-- C1: for any registered node `self` publishing a fixed payload
(`cb r` being receiver `r`'s callback result for that payload), the
broadcast never invokes the publisher's own callback; when identifiers
are unique, the target list has no duplicates (each other node exactly
once); when no receiver vetoes, every other registered node is invoked
exactly once in registry order and the publish returns OK; and when the
first veto occurs at receiver `x`, the receivers after `x` in registry
order are not invoked and the publish returns STOP_PROCESS. -/
theorem DataNode.publish_fanout (pool : List DataNode) (self : String)
    (cb : String → Res) :
    self ∉ (DataNode.publishRun pool self cb).2
    ∧ ((pool.map DataNode.id).Nodup → (DataNode.publishTargetsSpec pool self).Nodup)
    ∧ ((∀ i ∈ DataNode.publishTargetsSpec pool self, cb i ≠ Res.stopProcess) →
        DataNode.publishRun pool self cb = (Res.ok, DataNode.publishTargetsSpec pool self))
    ∧ (∀ (pre : List String) (x : String) (post : List String),
        DataNode.publishTargetsSpec pool self = pre ++ x :: post →
        (∀ i ∈ pre, cb i ≠ Res.stopProcess) → cb x = Res.stopProcess →
        DataNode.publishRun pool self cb = (Res.stopProcess, pre ++ [x])) := by
  refine ⟨publishRun_not_self self cb pool, ?_, publishRun_no_stop self cb pool,
    publishRun_stops self cb pool⟩
  intro h
  exact h.filter _

/-- C1 witness: in the registry ["Power", "Alarm", "Clock"], a publish
from "Alarm" with no veto reaches exactly ["Power", "Clock"]; with
"Power" vetoing, only ["Power"] is reached and STOP_PROCESS returns. -/
theorem DataNode.publish_fanout_witness :
    DataNode.publishRun [⟨"Power"⟩, ⟨"Alarm"⟩, ⟨"Clock"⟩] "Alarm" (fun _ => Res.ok)
      = (Res.ok, ["Power", "Clock"])
    ∧ DataNode.publishRun [⟨"Power"⟩, ⟨"Alarm"⟩, ⟨"Clock"⟩] "Alarm"
        (fun i => if i = "Power" then Res.stopProcess else Res.ok)
      = (Res.stopProcess, ["Power"]) := by
  constructor
  · have h := (DataNode.publish_fanout [⟨"Power"⟩, ⟨"Alarm"⟩, ⟨"Clock"⟩] "Alarm"
      (fun _ => Res.ok)).2.2.1 (by decide)
    simpa using h
  · have h := (DataNode.publish_fanout [⟨"Power"⟩, ⟨"Alarm"⟩, ⟨"Clock"⟩] "Alarm"
      (fun i => if i = "Power" then Res.stopProcess else Res.ok)).2.2.2
      [] "Power" ["Clock"] (by decide) (by decide) (by decide)
    simpa using h

/-- C3: one Timer Manager handler pass subtracts the elapsed ticks
from the remaining countdown saturating at zero; when the countdown
reaches zero exactly one TIMER event is delivered and the countdown
reloads to the full period; in particular advancing by 2.5×N ms in a
single pass on a fresh period-N timer causes exactly one TIMER
dispatch, not a burst. -/
theorem DataTimerManager.timerStep_spec :
    (∀ N rem e : Nat, rem ≤ e →
      DataTimerManager.timerStep ⟨N, rem⟩ e = (1, ⟨N, N⟩))
    ∧ (∀ N rem e : Nat, e < rem →
      DataTimerManager.timerStep ⟨N, rem⟩ e = (0, ⟨N, rem - e⟩))
    ∧ (∀ N : Nat, 0 < N →
      DataTimerManager.timerStep ⟨N, N⟩ (2 * N + N / 2) = (1, ⟨N, N⟩)) := by
  refine ⟨?_, ?_, ?_⟩
  · intro N rem e h
    simp [DataTimerManager.timerStep, Nat.sub_eq_zero_of_le h]
  · intro N rem e h
    have : rem - e ≠ 0 := by omega
    simp [DataTimerManager.timerStep, this]
  · intro N h
    have : N ≤ 2 * N + N / 2 := by omega
    simp [DataTimerManager.timerStep, Nat.sub_eq_zero_of_le this]

/-- C3 witness: a fresh 100 ms timer advanced by 250 ms in one pass
fires exactly once and reloads to 100 ms. -/
theorem DataTimerManager.timerStep_spec_witness :
    (0 : Nat) < 100
    ∧ DataTimerManager.timerStep ⟨100, 100⟩ (2 * 100 + 100 / 2) = (1, ⟨100, 100⟩) :=
  ⟨by norm_num, DataTimerManager.timerStep_spec.2.2 100 (by norm_num)⟩

/-- C2: adding a node whose identifier string-equals the identifier of
a node already in the registry returns false and leaves the registry
unchanged; adding a node with a fresh identifier returns true and
appends it; consequently, for every sequence of `DataBroker::add`
calls starting from the empty registry, the registry never contains
two nodes with the same identifier. -/
theorem DataBroker.add_unique :
    (∀ (pool : List DataNode) (node : DataNode),
      (∃ m ∈ pool, m.id = node.id) → DataBroker.add pool node = (false, pool))
    ∧ (∀ (pool : List DataNode) (node : DataNode),
      (∀ m ∈ pool, m.id ≠ node.id) →
        DataBroker.add pool node = (true, pool ++ [node]))
    ∧ (∀ nodes : List DataNode,
      ((DataBroker.addAll nodes).map DataNode.id).Nodup) := by
  refine ⟨?_, ?_, ?_⟩
  · intro pool node h
    unfold DataBroker.add
    cases hs : DataBroker.search pool node.id with
    | none => exact absurd hs (search_ne_none_of_mem h)
    | some m => rfl
  · intro pool node h
    unfold DataBroker.add
    rw [(search_eq_none_iff pool node.id).mpr h]
  · intro nodes
    exact addAll_gen_nodup nodes [] (by simp)

/-- C2 witness: a concrete duplicate add fails and leaves the pool
unchanged, and a concrete fresh add appends. -/
theorem DataBroker.add_unique_witness :
    DataBroker.add [⟨"Clock"⟩] ⟨"Clock"⟩ = (false, [⟨"Clock"⟩])
    ∧ DataBroker.add [⟨"Clock"⟩] ⟨"Alarm"⟩ = (true, [⟨"Clock"⟩, ⟨"Alarm"⟩]) :=
  ⟨DataBroker.add_unique.1 [⟨"Clock"⟩] ⟨"Clock"⟩ ⟨⟨"Clock"⟩, by simp, rfl⟩,
   DataBroker.add_unique.2.1 [⟨"Clock"⟩] ⟨"Alarm"⟩ (by
    intro m hm
    simp only [List.mem_singleton] at hm
    subst hm
    decide)⟩

/-- C10: for every pair of 32-bit tick values, `getTickElaps` computes
the difference `actTick - prevTick` modulo `2^32`, so elapsed-time
measurement stays correct across tick-counter wraparound. -/
theorem ButtonEvent.getTickElaps_spec (actTick prevTick : Nat)
    (_ha : actTick < 2 ^ 32) (hp : prevTick < 2 ^ 32) :
    (ButtonEvent.getTickElaps actTick prevTick : Int)
      = ((actTick : Int) - prevTick) % 2 ^ 32 := by
  unfold ButtonEvent.getTickElaps
  split <;> push_cast <;> omega

/-- C10 witness: the wraparound branch at concrete ticks 5 (current)
and 10 (previous) yields `2^32 - 5`. -/
theorem ButtonEvent.getTickElaps_spec_witness :
    (5 : Nat) < 2 ^ 32 ∧ (10 : Nat) < 2 ^ 32
    ∧ (ButtonEvent.getTickElaps 5 10 : Int) = ((5 : Int) - 10) % 2 ^ 32 :=
  ⟨by norm_num, by norm_num,
   ButtonEvent.getTickElaps_spec 5 10 (by norm_num) (by norm_num)⟩

/-- C4 counterexample: the claim as stated — every NOTIFY/PULL
receiver expecting a struct returns RES_SIZE_MISMATCH on a wrong-size
payload — fails at the concrete input of a 3-byte PULL to the Clock
node, which expects `HAL::Clock_Info_t` (10 bytes): DP_Clock forwards
the size to the Clock device, the device rejects it with the
(negative) RES_PARAM_ERROR, and DP_Clock reports RES_NO_DATA, not
RES_SIZE_MISMATCH. -/
theorem DP_Clock.pull_wrong_size_noData :
    DP_Clock.onEventPull 3 = Res.noData
    ∧ Res.noData ≠ Res.sizeMismatch := by
  refine ⟨?_, by decide⟩
  rfl

/-- C4 (amended): the Alarm node (expecting `Alarm_Info_t` on NOTIFY)
and the Template node (expecting `int` on NOTIFY and PULL) reject any
payload whose size differs from the expected struct's size with
RES_SIZE_MISMATCH, leaving their internal state unchanged (Template
also writes nothing to the caller's buffer); the exception is the
Clock node's PULL path, which forwards the size to the Clock device
and reports a wrong-size pull as RES_NO_DATA — the device rejects the
read before writing the buffer, so the state/buffer is still
untouched, but the result code is not RES_SIZE_MISMATCH. -/
theorem sizeMismatch_rejection :
    (∀ (st : AlarmState) (p : AlarmEventParam) (env : AlarmEnv),
      p.event = EventKind.notify → p.size ≠ DP_Alarm.sizeofAlarmInfo →
        DP_Alarm.onEvent st p env = (Res.sizeMismatch, st, []))
    ∧ (∀ (value : Int) (ev : EventKind) (size : Nat) (payload : Int),
      (ev = EventKind.notify ∨ ev = EventKind.pull) →
      size ≠ DP_Template.sizeofValue →
        DP_Template.onEvent value ev size payload
          = (Res.sizeMismatch, value, Option.none))
    ∧ (∀ size : Nat, size ≠ HAL.sizeofClockInfo →
        DP_Clock.onEventPull size = Res.noData
        ∧ Clock.onRead size = (DeviceObject.RES_PARAM_ERROR, false)) := by
  refine ⟨?_, ?_, ?_⟩
  · rintro st ⟨ev, tran, size, payload⟩ env hev hsize
    simp only at hev
    subst hev
    simp [DP_Alarm.onEvent, hsize]
  · intro value ev size payload _ hsize
    simp [DP_Template.onEvent, hsize]
  · intro size hsize
    have h10 : size ≠ 10 := hsize
    constructor
    · norm_num [DP_Clock.onEventPull, Clock.onRead, HAL.sizeofClockInfo,
        DeviceObject.RES_PARAM_ERROR, h10]
    · simp [Clock.onRead, HAL.sizeofClockInfo, h10]

/-- C4 witness: a 3-byte NOTIFY to the freshly constructed Alarm node
and a 3-byte NOTIFY to the Template node holding 0 are both rejected
with RES_SIZE_MISMATCH with unchanged state, while a 3-byte PULL to
the Clock node yields RES_NO_DATA with an untouched buffer. -/
theorem sizeMismatch_rejection_witness :
    DP_Alarm.onEvent ⟨Alarm_Param.init, AlarmMusic.init⟩
        ⟨EventKind.notify, Option.none, 3, AlarmPayload.raw⟩
        ⟨Res.ok, Res.ok, Option.none⟩
      = (Res.sizeMismatch, ⟨Alarm_Param.init, AlarmMusic.init⟩, [])
    ∧ DP_Template.onEvent 0 EventKind.notify 3 77
      = (Res.sizeMismatch, 0, Option.none)
    ∧ DP_Clock.onEventPull 3 = Res.noData
    ∧ Clock.onRead 3 = (DeviceObject.RES_PARAM_ERROR, false) :=
  ⟨sizeMismatch_rejection.1 ⟨Alarm_Param.init, AlarmMusic.init⟩
      ⟨EventKind.notify, Option.none, 3, AlarmPayload.raw⟩
      ⟨Res.ok, Res.ok, Option.none⟩ rfl (by decide),
   sizeMismatch_rejection.2.1 0 EventKind.notify 3 77 (Or.inl rfl) (by decide),
   (sizeMismatch_rejection.2.2 3 (by decide)).1,
   (sizeMismatch_rejection.2.2 3 (by decide)).2⟩

/-- C5: `subscribe(id)` returns null exactly when no node whose
identifier string-equals `id` is registered; `DP_TimeMonitor`'s
constructor installs no event callback exactly when "Clock" is
missing, `DP_Alarm`'s exactly when "TimeMonitor" is missing; and a
node whose callback was never installed answers every dispatch with
RES_UNSUPPORTED_REQUEST instead of crashing. -/
theorem subscribe_missing_dependency :
    (∀ (pool : List DataNode) (id : String),
      DataNode.subscribe pool id = Option.none ↔ ∀ m ∈ pool, m.id ≠ id)
    ∧ (∀ pool : List DataNode,
      DP_TimeMonitor.installsCallback pool = false ↔ ∀ m ∈ pool, m.id ≠ "Clock")
    ∧ (∀ pool : List DataNode,
      DP_Alarm.installsCallback pool = false ↔ ∀ m ∈ pool, m.id ≠ "TimeMonitor")
    ∧ (∀ (α : Type) (a : α),
      DataNode.runCallback (Option.none : Option (α → Res)) a
        = Res.unsupportedRequest) := by
  refine ⟨?_, ?_, ?_, ?_⟩
  · intro pool id
    exact search_eq_none_iff pool id
  · intro pool
    rw [show DP_TimeMonitor.installsCallback pool = false
          ↔ DataNode.subscribe pool "Clock" = Option.none by
        unfold DP_TimeMonitor.installsCallback
        cases DataNode.subscribe pool "Clock" <;> simp]
    exact search_eq_none_iff pool "Clock"
  · intro pool
    rw [show DP_Alarm.installsCallback pool = false
          ↔ DataNode.subscribe pool "TimeMonitor" = Option.none by
        unfold DP_Alarm.installsCallback
        cases DataNode.subscribe pool "TimeMonitor" <;> simp]
    exact search_eq_none_iff pool "TimeMonitor"
  · intro α a
    rfl

/-- C5 witness: in a registry holding only "Alarm", `subscribe
"Clock"` is null and DP_TimeMonitor's constructor installs no
callback; the uninstalled callback answers RES_UNSUPPORTED_REQUEST. -/
theorem subscribe_missing_dependency_witness :
    DataNode.subscribe [⟨"Alarm"⟩] "Clock" = Option.none
    ∧ DP_TimeMonitor.installsCallback [⟨"Alarm"⟩] = false
    ∧ DataNode.runCallback (Option.none : Option (Nat → Res)) 0
      = Res.unsupportedRequest :=
  ⟨(subscribe_missing_dependency.1 [⟨"Alarm"⟩] "Clock").mpr (by decide),
   (subscribe_missing_dependency.2.1 [⟨"Alarm"⟩]).mpr (by decide),
   subscribe_missing_dependency.2.2.2 Nat 0⟩

/-- C6: `DP_Power::onShutdown` always publishes the `Power_Info_t`
with cmd=SHUTDOWN first; if that publish returns STOP_PROCESS the
shutdown is vetoed — it returns without the battery-sleep ioctl, the
power-off ioctl, or stopping its timer; for any other publish result
all three actions are performed, in order. -/
theorem DP_Power.onShutdown_veto (publishRes : Res) :
    (DP_Power.onShutdown publishRes).head?
      = some (PowerAction.publishInfo POWER_CMD.shutdown)
    ∧ (publishRes = Res.stopProcess →
        DP_Power.onShutdown publishRes
          = [PowerAction.publishInfo POWER_CMD.shutdown])
    ∧ (publishRes ≠ Res.stopProcess →
        DP_Power.onShutdown publishRes
          = [PowerAction.publishInfo POWER_CMD.shutdown,
             PowerAction.batterySleepIoctl,
             PowerAction.powerOffIoctl,
             PowerAction.timerStopCall]) := by
  refine ⟨?_, ?_, ?_⟩
  · unfold DP_Power.onShutdown
    split <;> rfl
  · intro h
    simp [DP_Power.onShutdown, h]
  · intro h
    simp [DP_Power.onShutdown, h]

/-- C6 witness: a STOP_PROCESS publish result vetoes (only the publish
happened), an OK publish result performs all three follow-up actions. -/
theorem DP_Power.onShutdown_veto_witness :
    DP_Power.onShutdown Res.stopProcess
      = [PowerAction.publishInfo POWER_CMD.shutdown]
    ∧ DP_Power.onShutdown Res.ok
      = [PowerAction.publishInfo POWER_CMD.shutdown,
         PowerAction.batterySleepIoctl,
         PowerAction.powerOffIoctl,
         PowerAction.timerStopCall] :=
  ⟨(DP_Power.onShutdown_veto Res.stopProcess).2.1 rfl,
   (DP_Power.onShutdown_veto Res.ok).2.2 (by decide)⟩

/-- C9: each `App_RunLoopExecute` call publishes APP_RUN_LOOP_BEGIN on
the "Global" node, then runs the broker's timer handler, then
publishes APP_RUN_LOOP_END carrying the computed idle time, and
returns exactly the timer handler's return value; when no receiver
vetoes, the BEGIN broadcast reaches every other registered node in
registry order. -/
theorem App_RunLoopExecute_spec (pool : List DataNode)
    (cb : Global_Info → String → Res) (timerRet : Nat) :
    (App_RunLoopExecute pool cb timerRet).1 = timerRet
    ∧ (App_RunLoopExecute pool cb timerRet).2
      = [AppAction.published ⟨GLOBAL_EVENT.appRunLoopBegin, Option.none⟩
           (AppContext.publish pool cb GLOBAL_EVENT.appRunLoopBegin Option.none).2,
         AppAction.timerHandled timerRet,
         AppAction.published ⟨GLOBAL_EVENT.appRunLoopEnd, some timerRet⟩
           (AppContext.publish pool cb GLOBAL_EVENT.appRunLoopEnd (some timerRet)).2]
    ∧ ((∀ i ∈ DataNode.publishTargetsSpec pool "Global",
          cb ⟨GLOBAL_EVENT.appRunLoopBegin, Option.none⟩ i ≠ Res.stopProcess) →
        (AppContext.publish pool cb GLOBAL_EVENT.appRunLoopBegin Option.none).2
          = DataNode.publishTargetsSpec pool "Global") := by
  refine ⟨rfl, rfl, ?_⟩
  intro h
  have hrun := publishRun_no_stop "Global"
    (cb ⟨GLOBAL_EVENT.appRunLoopBegin, Option.none⟩) pool h
  simp [AppContext.publish, hrun]

/-- C9 witness: with registry ["Global", "Power"], all-OK callbacks
and a timer handler returning 42, the run loop returns 42 and the
BEGIN broadcast reaches exactly ["Power"]. -/
theorem App_RunLoopExecute_spec_witness :
    (App_RunLoopExecute [⟨"Global"⟩, ⟨"Power"⟩] (fun _ _ => Res.ok) 42).1 = 42
    ∧ (AppContext.publish [⟨"Global"⟩, ⟨"Power"⟩] (fun _ _ => Res.ok)
        GLOBAL_EVENT.appRunLoopBegin Option.none).2 = ["Power"] := by
  constructor
  · exact (App_RunLoopExecute_spec [⟨"Global"⟩, ⟨"Power"⟩] (fun _ _ => Res.ok) 42).1
  · have h := (App_RunLoopExecute_spec [⟨"Global"⟩, ⟨"Power"⟩]
      (fun _ _ => Res.ok) 42).2.2 (by decide)
    simpa using h

lemma int8OfInt_eq_self {x : Int} (h1 : -128 ≤ x) (h2 : x ≤ 127) :
    int8OfInt x = x := by
  unfold int8OfInt
  omega

lemma onMinuteChanged_len_le_one (p : Alarm_Param) (h m : Int) (env : AlarmEnv) :
    (DP_Alarm.onMinuteChanged p h m env).length ≤ 1 := by
  unfold DP_Alarm.onMinuteChanged
  cases DP_Alarm.minuteChangedScan p.alarms h m with
  | none => simp
  | some a =>
    by_cases hc : a.musicID < 0 ∨ 4 ≤ a.musicID <;>
      simp [DP_Alarm.playAlarmMusic, hc]

/-- C8 (amended): for the Alarm node's SET command, the call returns
RES_PARAM_ERROR exactly when id ∉ [0, 3] or hour ∉ [-1, 23] or minute
∉ [0, 59] (assuming the KVDB notify result, which is never
RES_PARAM_ERROR per DP_KVDB.cpp, is not RES_PARAM_ERROR); on a
parameter error the state is unchanged and nothing is persisted;
otherwise the entry at index id is set to (hour, minute, musicID
reduced into the `int8_t` range) and the parameters are persisted via
the KVDB node, whose notify result is returned. -/
theorem DP_Alarm.onNotify_set_spec (st : AlarmState) (info : Alarm_Info)
    (env : AlarmEnv) (hcmd : info.cmd = ALARM_CMD.set)
    (hkv : env.kvdbRes ≠ Res.paramError) :
    ((DP_Alarm.onNotify st info env).1 = Res.paramError
      ↔ (info.id < 0 ∨ 4 ≤ info.id) ∨ (info.hour < -1 ∨ 24 ≤ info.hour)
        ∨ (info.minute < 0 ∨ 59 < info.minute))
    ∧ (((info.id < 0 ∨ 4 ≤ info.id) ∨ (info.hour < -1 ∨ 24 ≤ info.hour)
        ∨ (info.minute < 0 ∨ 59 < info.minute)) →
        DP_Alarm.onNotify st info env = (Res.paramError, st, []))
    ∧ (¬((info.id < 0 ∨ 4 ≤ info.id) ∨ (info.hour < -1 ∨ 24 ≤ info.hour)
        ∨ (info.minute < 0 ∨ 59 < info.minute)) →
        DP_Alarm.onNotify st info env
          = (env.kvdbRes,
             { st with param :=
                { st.param with alarms :=
                    (st.param.alarms.set info.id.toNat
                      { hour := info.hour, minute := info.minute,
                        musicID := int8OfInt info.musicID }) } },
             [AlarmAction.kvdbSetParam
                { st.param with alarms :=
                    (st.param.alarms.set info.id.toNat
                      { hour := info.hour, minute := info.minute,
                        musicID := int8OfInt info.musicID }) }])) := by
  simp only [DP_Alarm.onNotify, hcmd]
  split_ifs with h1 h2 h3
  · exact ⟨iff_of_true rfl (Or.inl h1), fun _ => rfl,
      fun hc => absurd (Or.inl h1) hc⟩
  · exact ⟨iff_of_true rfl (Or.inr (Or.inl h2)), fun _ => rfl,
      fun hc => absurd (Or.inr (Or.inl h2)) hc⟩
  · exact ⟨iff_of_true rfl (Or.inr (Or.inr h3)), fun _ => rfl,
      fun hc => absurd (Or.inr (Or.inr h3)) hc⟩
  · have hh : int8OfInt info.hour = info.hour :=
      int8OfInt_eq_self (by omega) (by omega)
    have hm : int8OfInt info.minute = info.minute :=
      int8OfInt_eq_self (by omega) (by omega)
    rw [hh, hm]
    refine ⟨iff_of_false hkv (by tauto), fun hc => absurd hc (by tauto), fun _ => rfl⟩

/-- C8 counterexample: the claim as stated fails at the concrete input
(id=0, hour=7, minute=30, musicID=300): all validated fields are in
range, so no RES_PARAM_ERROR, but the stored entry's musicID is 44
(300 truncated through the `int8_t` field), not 300. -/
theorem DP_Alarm.set_musicID_truncated :
    (DP_Alarm.onNotify ⟨Alarm_Param.init, AlarmMusic.init⟩
        { cmd := ALARM_CMD.set, id := 0, hour := 7, minute := 30, musicID := 300,
          filter := 0, index := 0, frequency := 0, duration := 0, time := 0, bpm := 0 }
        ⟨Res.ok, Res.ok, Option.none⟩).1 ≠ Res.paramError
    ∧ ((DP_Alarm.onNotify ⟨Alarm_Param.init, AlarmMusic.init⟩
        { cmd := ALARM_CMD.set, id := 0, hour := 7, minute := 30, musicID := 300,
          filter := 0, index := 0, frequency := 0, duration := 0, time := 0, bpm := 0 }
        ⟨Res.ok, Res.ok, Option.none⟩).2.1.param.alarms.head?
      = some ⟨7, 30, 44⟩)
    ∧ (44 : Int) ≠ 300 := by
  refine ⟨?_, ?_, by decide⟩
  · decide
  · decide

/-- C8 witness: a valid SET (id=0, 07:30, musicID=2) from the default
state stores the entry, persists the new table via the KVDB node, and
returns the KVDB notify result. -/
theorem DP_Alarm.onNotify_set_spec_witness :
    DP_Alarm.onNotify ⟨Alarm_Param.init, AlarmMusic.init⟩
        { cmd := ALARM_CMD.set, id := 0, hour := 7, minute := 30, musicID := 2,
          filter := 0, index := 0, frequency := 0, duration := 0, time := 0, bpm := 0 }
        ⟨Res.ok, Res.ok, Option.none⟩
      = (Res.ok,
         ⟨{ hourlyAlarmFilter := 0xFFFFFFFF,
            alarms := [⟨7, 30, 2⟩, AlarmItem.init, AlarmItem.init, AlarmItem.init] },
          AlarmMusic.init⟩,
         [AlarmAction.kvdbSetParam
            { hourlyAlarmFilter := 0xFFFFFFFF,
              alarms := [⟨7, 30, 2⟩, AlarmItem.init, AlarmItem.init, AlarmItem.init] }]) := by
  have h := (DP_Alarm.onNotify_set_spec ⟨Alarm_Param.init, AlarmMusic.init⟩
      { cmd := ALARM_CMD.set, id := 0, hour := 7, minute := 30, musicID := 2,
        filter := 0, index := 0, frequency := 0, duration := 0, time := 0, bpm := 0 }
      ⟨Res.ok, Res.ok, Option.none⟩ rfl (by decide)).2.2 (by norm_num)
  rw [h]
  decide

/-- C7 counterexample: the claim as stated fails on the code.  The
Alarm node is not subscribed to "Clock" (DP_Alarm's constructor
subscribes to "TimeMonitor" and "Global" only, DP_Alarm.cpp:101,106),
and concretely: with an alarm configured at 07:30 → music 2, a PUBLISH
whose sender is a node "Clock" carrying (hour=7, minute=30) causes no
playback call at all — Alarm's handler only reacts to publishes from
its cached TimeMonitor and Global handles. -/
theorem DP_Alarm.clock_subscription_refuted :
    "Clock" ∉ DP_Alarm.subscriptionIDs
    ∧ (DP_Alarm.onEvent
        ⟨{ hourlyAlarmFilter := 0xFFFFFFFF,
           alarms := [⟨7, 30, 2⟩, AlarmItem.init, AlarmItem.init, AlarmItem.init] },
          AlarmMusic.init⟩
        ⟨EventKind.publish, some "Clock", 8,
          AlarmPayload.timeMonitorInfo ⟨TIME_MONITOR_EVENT.minuteChanged, 7, 30⟩⟩
        ⟨Res.ok, Res.ok, Option.none⟩).2.2 = [] := by
  refine ⟨by decide, ?_⟩
  rfl

/-- C7 (amended): the Alarm node subscribes to "TimeMonitor" (which
relays the Clock's time changes); after an alarm entry is configured
via a SET notify at hour=7, minute=30 with a music id in [0, 3], a
MINUTE_CHANGED publish from TimeMonitor carrying exactly (7, 30)
causes exactly one playback call to the Audio node, carrying times
(7, 29) or (7, 31) causes none, and in general at most one alarm
entry fires per minute-change event. -/
theorem DP_Alarm.minute_match_single_play (musicID : Int) (env : AlarmEnv)
    (h0 : 0 ≤ musicID) (h4 : musicID < 4) :
    ∀ st1 : AlarmState,
      st1 = (DP_Alarm.onNotify ⟨Alarm_Param.init, AlarmMusic.init⟩
        { cmd := ALARM_CMD.set, id := 0, hour := 7, minute := 30, musicID := musicID,
          filter := 0, index := 0, frequency := 0, duration := 0, time := 0, bpm := 0 }
        env).2.1 →
      "TimeMonitor" ∈ DP_Alarm.subscriptionIDs
      ∧ (DP_Alarm.onEvent st1
          ⟨EventKind.publish, some "TimeMonitor", 8,
            AlarmPayload.timeMonitorInfo ⟨TIME_MONITOR_EVENT.minuteChanged, 7, 30⟩⟩
          env).2.2 = [AlarmAction.audioPlay musicID]
      ∧ (DP_Alarm.onEvent st1
          ⟨EventKind.publish, some "TimeMonitor", 8,
            AlarmPayload.timeMonitorInfo ⟨TIME_MONITOR_EVENT.minuteChanged, 7, 29⟩⟩
          env).2.2 = []
      ∧ (DP_Alarm.onEvent st1
          ⟨EventKind.publish, some "TimeMonitor", 8,
            AlarmPayload.timeMonitorInfo ⟨TIME_MONITOR_EVENT.minuteChanged, 7, 31⟩⟩
          env).2.2 = []
      ∧ (∀ (p : Alarm_Param) (h m : Int),
          (DP_Alarm.onMinuteChanged p h m env).length ≤ 1) := by
  intro st1 hst
  have hint8 : int8OfInt musicID = musicID := int8OfInt_eq_self (by omega) (by omega)
  have hvalid : ¬(musicID < 0 ∨ 4 ≤ musicID) := by omega
  have hstate : st1
      = ⟨{ hourlyAlarmFilter := 0xFFFFFFFF,
           alarms := [⟨7, 30, musicID⟩, AlarmItem.init, AlarmItem.init, AlarmItem.init] },
          AlarmMusic.init⟩ := by
    rw [hst]
    norm_num [DP_Alarm.onNotify, Alarm_Param.init, hint8]
    exact ⟨by decide, by decide⟩
  subst hstate
  refine ⟨by decide, ?_, ?_, ?_, fun p h m => onMinuteChanged_len_le_one p h m env⟩
  · norm_num [DP_Alarm.onEvent, DP_Alarm.onMinuteChanged,
      DP_Alarm.minuteChangedScan, DP_Alarm.playAlarmMusic, AlarmItem.init, hvalid]
    rfl
  · norm_num [DP_Alarm.onEvent, DP_Alarm.onMinuteChanged,
      DP_Alarm.minuteChangedScan, AlarmItem.init]
    rfl
  · norm_num [DP_Alarm.onEvent, DP_Alarm.onMinuteChanged,
      DP_Alarm.minuteChangedScan, AlarmItem.init]
    rfl

/-- C7 witness: configuring 07:30 → music 2 via the SET notify and
then delivering a MINUTE_CHANGED publish from TimeMonitor carrying
(7, 30) yields exactly one Audio playback call, while (7, 29) yields
none. -/
theorem DP_Alarm.minute_match_single_play_witness :
    (DP_Alarm.onEvent
        ((DP_Alarm.onNotify ⟨Alarm_Param.init, AlarmMusic.init⟩
          { cmd := ALARM_CMD.set, id := 0, hour := 7, minute := 30, musicID := 2,
            filter := 0, index := 0, frequency := 0, duration := 0, time := 0, bpm := 0 }
          ⟨Res.ok, Res.ok, Option.none⟩).2.1)
        ⟨EventKind.publish, some "TimeMonitor", 8,
          AlarmPayload.timeMonitorInfo ⟨TIME_MONITOR_EVENT.minuteChanged, 7, 30⟩⟩
        ⟨Res.ok, Res.ok, Option.none⟩).2.2 = [AlarmAction.audioPlay 2]
    ∧ (DP_Alarm.onEvent
        ((DP_Alarm.onNotify ⟨Alarm_Param.init, AlarmMusic.init⟩
          { cmd := ALARM_CMD.set, id := 0, hour := 7, minute := 30, musicID := 2,
            filter := 0, index := 0, frequency := 0, duration := 0, time := 0, bpm := 0 }
          ⟨Res.ok, Res.ok, Option.none⟩).2.1)
        ⟨EventKind.publish, some "TimeMonitor", 8,
          AlarmPayload.timeMonitorInfo ⟨TIME_MONITOR_EVENT.minuteChanged, 7, 29⟩⟩
        ⟨Res.ok, Res.ok, Option.none⟩).2.2 = [] := by
  have h := DP_Alarm.minute_match_single_play 2 ⟨Res.ok, Res.ok, Option.none⟩
    (by norm_num) (by norm_num) _ rfl
  exact ⟨h.2.1, h.2.2.1⟩

end DutyCycle
